import Mathlib

/-!
# otelgin.Middleware: a shallow embedding

The Go function `Middleware` of `gintrace.go` builds a gin request handler that
wraps every request in a tracing span and emits correlated log lines.

The embedding is explicit state passing:

* the gin context `c` is a value that the handler threads through its steps;
* every call the handler makes to the tracer, the span, the logger and the
  downstream chain `c.Next` is appended to a trace of `Event`s, in program
  order;
* a Go panic is an outcome: the chain returns the state it reached together
  with an optional panic value, and the handler does the same;
* `defer` is modelled by running the deferred calls, last registered first,
  when the function body has finished, whether by return or by panic.

Collaborators that live outside the repository (tracer, propagator, filters,
the downstream chain) are parameters.  Filters, `Extract` and `tracer.Start`
are taken to be total functions that do not panic; only the downstream chain
may panic.  The request pointer `c.Request` is taken to be non-nil.
-/

namespace otelgin

/-! ## Data model -/

/-- A `context.Context` value: the background context or a context derived
from a parent, tagged with what was attached to it. -/
inductive Ctx where
  | background : Ctx
  | derived (parent : Ctx) (label : String) : Ctx
deriving DecidableEq, Repr

/-- The `http.Header` map, as an association list. -/
abbrev Header := List (String × List String)

/-- The fields of `*http.Request` that the middleware reads or writes.
`URLPath` is the raw path of the request; the middleware never reads it. -/
structure Request where
  Method : String
  Host : String
  URLPath : String
  Header : Header
  ctx : Ctx
deriving DecidableEq, Repr

/-- Go `(*http.Request).Context`. -/
def Request.Context (r : Request) : Ctx := r.ctx

/-- Go `(*http.Request).WithContext`: a shallow copy of the request whose
context is replaced. -/
def Request.WithContext (r : Request) (ctx : Ctx) : Request :=
  { r with ctx := ctx }

/-- An attribute or log field value: `attribute.String`, `attribute.Int`. -/
inductive Value where
  | str (s : String) : Value
  | int (n : Int) : Value
deriving DecidableEq, Repr

/-- An `attribute.KeyValue`. -/
structure KeyValue where
  key : String
  value : Value
deriving DecidableEq, Repr

/-- The span kinds of `oteltrace.SpanKind`. -/
inductive SpanKind where
  | unspecified | internal | server | client | producer | consumer
deriving DecidableEq, Repr

/-- The effect of the `[]oteltrace.SpanStartOption` list handed to
`tracer.Start`: `WithAttributes(...)` and `WithSpanKind(...)`. -/
structure SpanStartConfig where
  attributes : List KeyValue
  kind : SpanKind
deriving DecidableEq, Repr

/-- A span handle: what `span.SpanContext()` exposes of it, the trace ID and
the span ID in their string form. -/
structure Span where
  traceID : String
  spanID : String
deriving DecidableEq, Repr

/-- An `oteltrace.Tracer`: its instrumentation scope and its `Start`. -/
structure Tracer where
  scope : String
  version : String
  Start : Ctx → String → SpanStartConfig → Ctx × Span

/-- An `oteltrace.TracerProvider`: `Tracer(name, WithInstrumentationVersion(v))`. -/
structure TracerProvider where
  Tracer : String → String → Tracer

/-- A `propagation.TextMapPropagator`: only `Extract` is used. -/
structure TextMapPropagator where
  Extract : Ctx → Header → Ctx

/-- The log exporter returned by `otlploggrpc.New`. -/
structure Exporter where
  id : Nat
deriving DecidableEq, Repr

/-- The `log.LoggerProvider` built by `log.NewLoggerProvider(log.WithProcessor(
log.NewBatchProcessor(exporter)))`. -/
structure LoggerProvider where
  exporter : Exporter
deriving DecidableEq, Repr

/-- The logger returned by `otelslog.NewLogger(name)`: bound to the logger
provider that is the process-wide one when the logger is made. -/
structure Logger where
  name : String
  provider : Option LoggerProvider
deriving DecidableEq, Repr

/-- The slog levels. -/
inductive Level where
  | debug | info | warn | error
deriving DecidableEq, Repr

/-- One call `logger.With(fields...).<Level>(msg, args...)`. -/
structure LogRecord where
  level : Level
  fields : List (String × Value)
  msg : String
  args : List String
deriving DecidableEq, Repr

/-- The gin context `*gin.Context`, as far as the middleware touches it:
the request, the matched route template returned by `c.FullPath()`, the
key/value store written by `c.Set`, the status returned by
`c.Writer.Status()` and the error list `c.Errors`.  With the response writer
of gin itself the status is `defaultStatus` until a handler writes one; a
writer put in its place may report any integer. -/
structure GinContext where
  Request : Request
  fullPath : String
  Keys : List (String × Tracer)
  status : Int
  Errors : List String

/-- Go `c.FullPath()`. -/
def GinContext.FullPath (c : GinContext) : String := c.fullPath

/-- Go `c.Set(key, value)`: the map entry for `key` is overwritten. -/
def GinContext.Set (c : GinContext) (key : String) (t : Tracer) : GinContext :=
  { c with Keys := (key, t) :: c.Keys.filter (fun kv => kv.1 != key) }

/-- The value of a Go panic. -/
abbrev PanicValue := String

/-- What running the downstream handler chain (`c.Next()`) gives: the gin
context as the chain left it, and the panic value when the chain panicked. -/
structure ChainResult where
  c : GinContext
  panic : Option PanicValue

/-- The downstream handler chain: handlers hold the pointer `c`, so they may
change every field of the gin context, and they may panic. -/
abbrev Chain := GinContext → ChainResult

/-- The calls the request handler makes, in program order. -/
inductive Event where
  | tracerStart (ctx : Ctx) (name : String) (opts : SpanStartConfig) (span : Span) : Event
  | setAttributes (span : Span) (attrs : List KeyValue) : Event
  | spanEnd (span : Span) : Event
  | log (logger : Logger) (record : LogRecord) : Event
  | next (request : Request) : Event
deriving DecidableEq, Repr

/-- The outcome of one run of the request handler: the gin context when the
handler finishes, the calls it made, and the panic it finishes with, if any. -/
structure HandlerResult where
  c : GinContext
  trace : List Event
  panic : Option PanicValue

/-- The `config` struct, with the fields that `Middleware` uses.  A nil
provider or propagator is `none`. -/
structure config where
  TracerProvider : Option TracerProvider
  Propagators : Option TextMapPropagator
  Filters : List (Request → Bool)
  GinFilters : List (GinContext → Bool)

/-- An `Option`: its `apply` updates the config. -/
abbrev Opt := config → config

/-! ## Constants -/

/-- The constant `tracerKey`. -/
def tracerKey : String := "笑死了"

/-- The constant `ScopeName`. -/
def ScopeName : String := "otelgin"

/-- The constant `defaultStatus` of the gin library (`http.StatusOK`): what
`c.Writer.Status()` of gin's own response writer reports for a response whose
status no handler has set. -/
def defaultStatus : Int := 200

/-- The semconv v1.20.0 key `ServiceNameKey`. -/
def ServiceNameKey : String := "service.name"
/-- The semconv v1.20.0 key `RPCSystemKey`. -/
def RPCSystemKey : String := "rpc.system"
/-- The semconv v1.20.0 key `RPCServiceKey`. -/
def RPCServiceKey : String := "rpc.service"
/-- The semconv v1.20.0 key `RPCMethodKey`. -/
def RPCMethodKey : String := "rpc.method"
/-- The semconv v1.20.0 key `NetPeerNameKey`. -/
def NetPeerNameKey : String := "net.peer.name"
/-- The semconv v1.20.0 key `RPCGRPCStatusCodeKey`. -/
def RPCGRPCStatusCodeKey : String := "rpc.grpc.status_code"

/-! ## The request handler -/

/-- Two-digit decimal rendering, the `%02d` of Go. -/
def pad2 (n : Nat) : String :=
  if n < 10 then "0" ++ toString n else toString n

/-- Rendering of the errors from index `i` on, one line per error. -/
def errorsStringFrom : Nat → List String → String
  | _, [] => ""
  | i, e :: es => "Error #" ++ pad2 i ++ ": " ++ e ++ "\n" ++ errorsStringFrom (i + 1) es

/-- Go `c.Errors.String()`, a function of the gin library: the serialized
form of the recorded errors.  The middleware only passes its result on. -/
def ErrorsString (es : List String) : String := errorsStringFrom 1 es

/-- The variables captured by the closure that `Middleware` returns. -/
structure Closure where
  service : String
  Filters : List (Request → Bool)
  GinFilters : List (GinContext → Bool)
  Propagators : TextMapPropagator
  tracer : Tracer
  logger : Logger

/-- The loop `for _, f := range fs { if !f(x) { c.Next(); return } }`:
whether some predicate, tried in order, returns false on `x`. -/
def rejects {α : Type} : List (α → Bool) → α → Bool
  | [], _ => false
  | f :: fs, x => if !f x then true else rejects fs x

/-- Whether the request is filtered out: the loop over `Filters` (on
`c.Request`) followed by the loop over `GinFilters` (on `c`). -/
def filteredOut (k : Closure) (c : GinContext) : Bool :=
  rejects k.Filters c.Request || rejects k.GinFilters c

/-- The branch `c.Next(); return` of a rejecting filter. -/
def skipped (next : Chain) (c : GinContext) : HandlerResult :=
  let r := next c
  { c := r.c, trace := [Event.next c.Request], panic := r.panic }

/-- The attributes given to `oteltrace.WithAttributes` at span start. -/
def startAttributes (service : String) (r : Request) : List KeyValue :=
  [ ⟨ServiceNameKey, Value.str service⟩,
    ⟨RPCSystemKey, Value.str "grpc"⟩,
    ⟨RPCServiceKey, Value.str service⟩,
    ⟨RPCMethodKey, Value.str r.Method⟩,
    ⟨NetPeerNameKey, Value.str r.Host⟩ ]

/-- The option list `opts` given to `tracer.Start`. -/
def startOpts (service : String) (r : Request) : SpanStartConfig :=
  { attributes := startAttributes service r, kind := SpanKind.server }

/-- The fields of `logger.With("traceID", traceID, "spanID", spanID)`. -/
def correlation (span : Span) : List (String × Value) :=
  [("traceID", Value.str span.traceID), ("spanID", Value.str span.spanID)]

/-- The context `ctx` of the `Extract` call: extraction from the request
headers on top of the saved request context. -/
def extracted (k : Closure) (c : GinContext) : Ctx :=
  k.Propagators.Extract (c.Set tracerKey k.tracer).Request.Context
    (c.Set tracerKey k.tracer).Request.Header

/-- The result `(ctx, span)` of the call `tracer.Start(ctx, spanName, opts...)`. -/
def started (k : Closure) (c : GinContext) : Ctx × Span :=
  k.tracer.Start (extracted k c) (c.Set tracerKey k.tracer).FullPath
    (startOpts k.service (c.Set tracerKey k.tracer).Request)

/-- The gin context at the call `c.Next()` of the traced path: the tracer is
stored under `tracerKey` and the request carries the context that
`tracer.Start` returned. -/
def tracedEntry (k : Closure) (c : GinContext) : GinContext :=
  { c.Set tracerKey k.tracer with
    Request := (c.Set tracerKey k.tracer).Request.WithContext (started k c).1 }

/-- The statements after `c.Next()` has returned: status attribute, error
attribute and error log, final info log. -/
def finalize (k : Closure) (span : Span) (c : GinContext) : List Event :=
  let status := c.status
  (if status > 0 then
      [Event.setAttributes span [⟨RPCGRPCStatusCodeKey, Value.int status⟩]]
    else []) ++
  (if c.Errors.length > 0 then
      [ Event.setAttributes span [⟨"gin.errors", Value.str (ErrorsString c.Errors)⟩],
        Event.log k.logger
          { level := Level.error, fields := correlation span,
            msg := "请求出错: ", args := [ErrorsString c.Errors] } ]
    else []) ++
  [ Event.log k.logger
      { level := Level.info,
        fields := correlation span ++ [("status", Value.int status)],
        msg := "请求完成: ", args := [c.Request.Method, " ", c.FullPath] } ]

/-- The traced path up to the end of the function body, deferred calls not
yet run: span start, debug log, context replacement, `c.Next()`, and, when
the chain returned, the finalization statements. -/
def tracedBody (k : Closure) (next : Chain) (c : GinContext) : HandlerResult :=
  let c1 := c.Set tracerKey k.tracer
  let ctx := extracted k c
  let opts := startOpts k.service c1.Request
  let spanName := c1.FullPath
  let span := (started k c).2
  let debug := Event.log k.logger
    { level := Level.debug, fields := correlation span,
      msg := "收到请求: ", args := [c1.Request.Method, " ", c1.FullPath] }
  let c2 := tracedEntry k c
  let r := next c2
  let pre := [Event.tracerStart ctx spanName opts span, debug, Event.next c2.Request]
  match r.panic with
  | some v => { c := r.c, trace := pre, panic := some v }
  | none => { c := r.c, trace := pre ++ finalize k span r.c, panic := none }

/-- The traced path: the body, then the deferred calls in reverse order of
registration: `span.End()` first, then the restoration
`c.Request = c.Request.WithContext(savedCtx)`.  They run on return and on
panic alike, and the panic, if any, goes on afterwards. -/
def traced (k : Closure) (next : Chain) (c : GinContext) : HandlerResult :=
  let savedCtx := (c.Set tracerKey k.tracer).Request.Context
  let span := (started k c).2
  let body := tracedBody k next c
  { c := { body.c with Request := body.c.Request.WithContext savedCtx },
    trace := body.trace ++ [Event.spanEnd span],
    panic := body.panic }

/-- The closure returned by `Middleware`, run on the gin context `c` with the
downstream chain `next`. -/
def handler (k : Closure) (next : Chain) (c : GinContext) : HandlerResult :=
  if filteredOut k c then skipped next c else traced k next c

/-! ## Construction -/

/-- The process-wide logging state: the logger provider installed by
`global.SetLoggerProvider`, and the providers on which `Shutdown` has run. -/
structure Process where
  loggerProvider : Option LoggerProvider
  stopped : List LoggerProvider
deriving DecidableEq, Repr

/-- What `Middleware` reads from outside: the result of
`otlploggrpc.New(ctx, otlploggrpc.WithInsecure())`, the process-wide tracer
provider and propagator, and the result of `Version()`. -/
structure Env where
  newExporter : Except String Exporter
  GetTracerProvider : TracerProvider
  GetTextMapPropagator : TextMapPropagator
  Version : String

/-- The calls on the logging pipeline made during construction. -/
inductive SetupEvent where
  | setLoggerProvider (lp : LoggerProvider) : SetupEvent
  | shutdown (lp : LoggerProvider) : SetupEvent
deriving DecidableEq, Repr

/-- The outcome of `Middleware`: the handler it returns (none when it
panics), the process state at that moment, the calls on the logging pipeline
in program order, and the panic value. -/
structure Constructed where
  handler : Option (Chain → GinContext → HandlerResult)
  proc : Process
  calls : List SetupEvent
  panic : Option PanicValue

/-- Go `otelslog.NewLogger(name)`: with no provider option the logger is
bound to the process-wide logger provider. -/
def NewLogger (name : String) (p : Process) : Logger :=
  { name := name, provider := p.loggerProvider }

/-- The loop `for _, opt := range opts { opt.apply(&cfg) }` on `config{}`. -/
def applyOptions (opts : List Opt) : config :=
  opts.foldl (fun cfg opt => opt cfg)
    { TracerProvider := none, Propagators := none, Filters := [], GinFilters := [] }

/-- The function `Middleware(service, opts...)`, run in the process state `p`. -/
def Middleware (env : Env) (service : String) (opts : List Opt) (p : Process) :
    Constructed :=
  match env.newExporter with
  | Except.error _ =>
    { handler := none, proc := p, calls := [],
      panic := some "无法初始化 gRPC 日志导出器" }
  | Except.ok logExporter =>
    let lp : LoggerProvider := { exporter := logExporter }
    -- `defer lp.Shutdown(ctx)` is registered here
    let p1 : Process := { p with loggerProvider := some lp }
    let logger := NewLogger tracerKey p1
    let cfg := applyOptions opts
    let tp := match cfg.TracerProvider with
      | none => env.GetTracerProvider
      | some tp => tp
    let tracer := tp.Tracer ScopeName env.Version
    let propagators := match cfg.Propagators with
      | none => env.GetTextMapPropagator
      | some pr => pr
    let k : Closure :=
      { service := service, Filters := cfg.Filters, GinFilters := cfg.GinFilters,
        Propagators := propagators, tracer := tracer, logger := logger }
    -- the deferred `lp.Shutdown(ctx)` runs before control returns to the caller
    let p2 : Process := { p1 with stopped := lp :: p1.stopped }
    { handler := some (handler k), proc := p2,
      calls := [SetupEvent.setLoggerProvider lp, SetupEvent.shutdown lp],
      panic := none }

/-! ## Observations on a trace -/

/-- Number of `tracer.Start` calls in a trace. -/
def startCount (tr : List Event) : Nat :=
  tr.countP (fun e => match e with | Event.tracerStart _ _ _ _ => true | _ => false)

/-- Number of `End` calls on the span `sp` in a trace. -/
def endCount (sp : Span) (tr : List Event) : Nat :=
  tr.countP (fun e => match e with | Event.spanEnd s => decide (s = sp) | _ => false)

/-- Number of `End` calls on any span in a trace. -/
def endCountAll (tr : List Event) : Nat :=
  tr.countP (fun e => match e with | Event.spanEnd _ => true | _ => false)

/-- Number of `c.Next()` calls in a trace. -/
def nextCount (tr : List Event) : Nat :=
  tr.countP (fun e => match e with | Event.next _ => true | _ => false)

/-- The log records of a trace, in order. -/
def logsOf : List Event → List LogRecord
  | [] => []
  | Event.log _ r :: tr => r :: logsOf tr
  | _ :: tr => logsOf tr

/-- The `tracer.Start` calls of a trace, in order: the context, the span
name and the start options given, and the span returned. -/
def startCalls : List Event → List (Ctx × String × SpanStartConfig × Span)
  | [] => []
  | Event.tracerStart ctx name opts sp :: tr => (ctx, name, opts, sp) :: startCalls tr
  | _ :: tr => startCalls tr

/-- The gin context at the call `c.Next()`: the incoming one on the
filtered-out path, the one carrying the span context on the traced path. -/
def chainEntry (k : Closure) (c : GinContext) : GinContext :=
  if filteredOut k c then c else tracedEntry k c

/-- The attributes that the span `sp` has accumulated when `End` is called
on it: those of its start followed by those of the `SetAttributes` calls made
before the `End`.  It is `none` when the trace never ends the span. -/
def closedSpanAttrs (sp : Span) : List Event → List KeyValue → Option (List KeyValue)
  | [], _ => none
  | Event.tracerStart _ _ opts s :: tr, acc =>
    if s = sp then closedSpanAttrs sp tr (acc ++ opts.attributes)
    else closedSpanAttrs sp tr acc
  | Event.setAttributes s attrs :: tr, acc =>
    if s = sp then closedSpanAttrs sp tr (acc ++ attrs) else closedSpanAttrs sp tr acc
  | Event.spanEnd s :: tr, acc =>
    if s = sp then some acc else closedSpanAttrs sp tr acc
  | _ :: tr, acc => closedSpanAttrs sp tr acc

/-! ## Sample collaborators and requests -/

/-- The span handed out by `sampleTracer`. -/
def sampleSpan : Span := ⟨"4bf92f3577b34da6a3ce929d0e0e4736", "00f067aa0ba902b7"⟩

/-- A tracer that derives the span context from its parent and hands out
`sampleSpan`. -/
def sampleTracer : Tracer :=
  { scope := ScopeName, version := "0.1.0",
    Start := fun ctx name _ => (Ctx.derived ctx ("span " ++ name), sampleSpan) }

/-- A propagator that attaches the first `traceparent` header value, if any. -/
def samplePropagator : TextMapPropagator :=
  { Extract := fun ctx h =>
      match h.lookup "traceparent" with
      | some (v :: _) => Ctx.derived ctx ("remote " ++ v)
      | _ => ctx }

/-- A logger bound to a provider over exporter 7. -/
def sampleLogger : Logger := { name := tracerKey, provider := some ⟨⟨7⟩⟩ }

/-- A closure with no filters configured. -/
def openClosure : Closure :=
  { service := "users", Filters := [], GinFilters := [],
    Propagators := samplePropagator, tracer := sampleTracer, logger := sampleLogger }

/-- A closure with one filter, which returns false for all requests. -/
def rejectAllClosure : Closure :=
  { openClosure with Filters := [fun _ => false] }

/-- A closure whose only gin filter rejects requests to the host `internal`. -/
def ginFilterClosure : Closure :=
  { openClosure with GinFilters := [fun c => c.Request.Host != "internal"] }

/-- The request `GET /users/42`, no propagation headers. -/
def sampleRequest : Request :=
  { Method := "GET", Host := "example.com", URLPath := "/users/42", Header := [],
    ctx := Ctx.background }

/-- The gin context of `sampleRequest`, matched by the route `/users/:id`, as
gin hands it to the first handler: no status set, no error recorded. -/
def sampleContext : GinContext :=
  { Request := sampleRequest, fullPath := "/users/:id", Keys := [],
    status := defaultStatus, Errors := [] }

/-- The same gin context with `c.Writer` replaced by a writer whose `Status()`
reports 0. -/
def zeroStatusContext : GinContext := { sampleContext with status := 0 }

/-- A chain that sets no status, records no error and returns. -/
def idleChain : Chain := fun c => { c := c, panic := none }

/-- A chain that writes status 200 and returns. -/
def okChain : Chain := fun c => { c := { c with status := 200 }, panic := none }

/-- A chain that records one error, writes status 500 and returns. -/
def errorChain : Chain := fun c =>
  { c := { c with status := 500, Errors := c.Errors ++ ["db down"] }, panic := none }

/-- A chain that records one error, writes status 500 and then panics. -/
def panicChain : Chain := fun c =>
  { c := { c with status := 500, Errors := c.Errors ++ ["db down"] }, panic := some "boom" }

/-- A chain that replaces the request by one with a derived context, the
assignment `c.Request = c.Request.WithContext(ctx)`, and returns. -/
def rebindChain : Chain := fun c =>
  { c := { c with Request := c.Request.WithContext (Ctx.derived c.Request.Context "user") },
    panic := none }

/-- A process state with no logger provider installed. -/
def freshProcess : Process := { loggerProvider := none, stopped := [] }

/-- An environment in which the log exporter initialises. -/
def sampleEnv : Env :=
  { newExporter := Except.ok ⟨7⟩,
    GetTracerProvider := { Tracer := fun _ _ => sampleTracer },
    GetTextMapPropagator := samplePropagator,
    Version := "0.1.0" }

/-! ## Lemmas -/

theorem rejects_eq_false_iff {α : Type} (fs : List (α → Bool)) (x : α) :
    rejects fs x = false ↔ ∀ f ∈ fs, f x = true := by
  induction fs with
  | nil => simp [rejects]
  | cons f fs ih =>
    cases hf : f x <;> simp [rejects, hf, ih]

theorem rejects_eq_true_iff {α : Type} (fs : List (α → Bool)) (x : α) :
    rejects fs x = true ↔ ∃ f ∈ fs, f x = false := by
  induction fs with
  | nil => simp [rejects]
  | cons f fs ih =>
    cases hf : f x <;> simp [rejects, hf, ih]

theorem filteredOut_eq_false_iff (k : Closure) (c : GinContext) :
    filteredOut k c = false ↔
      (∀ f ∈ k.Filters, f c.Request = true) ∧ (∀ g ∈ k.GinFilters, g c = true) := by
  simp [filteredOut, rejects_eq_false_iff]

theorem filteredOut_eq_true_iff (k : Closure) (c : GinContext) :
    filteredOut k c = true ↔
      (∃ f ∈ k.Filters, f c.Request = false) ∨ (∃ g ∈ k.GinFilters, g c = false) := by
  simp [filteredOut, rejects_eq_true_iff]

theorem handler_of_pass (k : Closure) (next : Chain) (c : GinContext)
    (hF : ∀ f ∈ k.Filters, f c.Request = true) (hG : ∀ g ∈ k.GinFilters, g c = true) :
    handler k next c = traced k next c := by
  have h := (filteredOut_eq_false_iff k c).2 ⟨hF, hG⟩
  simp [handler, h]

theorem handler_of_reject (k : Closure) (next : Chain) (c : GinContext)
    (h : (∃ f ∈ k.Filters, f c.Request = false) ∨ (∃ g ∈ k.GinFilters, g c = false)) :
    handler k next c = skipped next c := by
  have h2 := (filteredOut_eq_true_iff k c).2 h
  simp [handler, h2]

/-- The trace of the traced path when the chain returns. -/
theorem traced_trace_of_return (k : Closure) (next : Chain) (c : GinContext)
    (h : (next (tracedEntry k c)).panic = none) :
    (traced k next c).trace =
      [ Event.tracerStart (extracted k c) c.FullPath (startOpts k.service c.Request)
          (started k c).2,
        Event.log k.logger
          { level := Level.debug, fields := correlation (started k c).2,
            msg := "收到请求: ", args := [c.Request.Method, " ", c.FullPath] },
        Event.next (tracedEntry k c).Request ] ++
      finalize k (started k c).2 (next (tracedEntry k c)).c ++
      [Event.spanEnd (started k c).2] := by
  simp only [traced, tracedBody, h]
  rfl

/-- The trace of the traced path when the chain panics. -/
theorem traced_trace_of_panic (k : Closure) (next : Chain) (c : GinContext) (v : PanicValue)
    (h : (next (tracedEntry k c)).panic = some v) :
    (traced k next c).trace =
      [ Event.tracerStart (extracted k c) c.FullPath (startOpts k.service c.Request)
          (started k c).2,
        Event.log k.logger
          { level := Level.debug, fields := correlation (started k c).2,
            msg := "收到请求: ", args := [c.Request.Method, " ", c.FullPath] },
        Event.next (tracedEntry k c).Request,
        Event.spanEnd (started k c).2 ] := by
  simp only [traced, tracedBody, h]
  rfl

theorem finalize_counts (k : Closure) (sp : Span) (c : GinContext) :
    startCount (finalize k sp c) = 0 ∧ endCountAll (finalize k sp c) = 0 ∧
      endCount sp (finalize k sp c) = 0 ∧ nextCount (finalize k sp c) = 0 ∧
      startCalls (finalize k sp c) = [] := by
  unfold finalize
  by_cases h1 : c.status > 0 <;> by_cases h2 : c.Errors.length > 0 <;>
    simp [h1, h2, startCount, endCountAll, endCount, nextCount, startCalls]

theorem startCalls_append (xs ys : List Event) :
    startCalls (xs ++ ys) = startCalls xs ++ startCalls ys := by
  induction xs with
  | nil => rfl
  | cons e xs ih => cases e <;> simp [startCalls, ih]

theorem logsOf_append (xs ys : List Event) :
    logsOf (xs ++ ys) = logsOf xs ++ logsOf ys := by
  induction xs with
  | nil => rfl
  | cons e xs ih => cases e <;> simp [logsOf, ih]

/-- The attributes of the closed span when the chain returns. -/
theorem closedSpanAttrs_of_return (k : Closure) (next : Chain) (c : GinContext)
    (h : (next (tracedEntry k c)).panic = none) :
    closedSpanAttrs (started k c).2 (traced k next c).trace [] =
      some (startAttributes k.service c.Request ++
        (if (next (tracedEntry k c)).c.status > 0 then
          [⟨RPCGRPCStatusCodeKey, Value.int (next (tracedEntry k c)).c.status⟩] else []) ++
        (if (next (tracedEntry k c)).c.Errors.length > 0 then
          [⟨"gin.errors", Value.str (ErrorsString (next (tracedEntry k c)).c.Errors)⟩]
          else [])) := by
  rw [traced_trace_of_return k next c h]
  unfold finalize
  by_cases h1 : (next (tracedEntry k c)).c.status > 0 <;>
    by_cases h2 : (next (tracedEntry k c)).c.Errors.length > 0 <;>
    simp [h1, h2, closedSpanAttrs, startOpts]

/-- The attributes of the closed span when the chain panics. -/
theorem closedSpanAttrs_of_panic (k : Closure) (next : Chain) (c : GinContext) (v : PanicValue)
    (h : (next (tracedEntry k c)).panic = some v) :
    closedSpanAttrs (started k c).2 (traced k next c).trace [] =
      some (startAttributes k.service c.Request) := by
  rw [traced_trace_of_panic k next c v h]
  simp [closedSpanAttrs, startOpts]

/-- The log records of the finalization statements. -/
theorem logsOf_finalize (k : Closure) (sp : Span) (c : GinContext) :
    logsOf (finalize k sp c) =
      (if c.Errors.length > 0 then
        [ { level := Level.error, fields := correlation sp,
            msg := "请求出错: ", args := [ErrorsString c.Errors] } ]
        else []) ++
      [ { level := Level.info,
          fields := correlation sp ++ [("status", Value.int c.status)],
          msg := "请求完成: ", args := [c.Request.Method, " ", c.FullPath] } ] := by
  unfold finalize
  by_cases h1 : c.status > 0 <;> by_cases h2 : c.Errors.length > 0 <;>
    simp [h1, h2, logsOf]

/-- Every log call of the handler goes through the captured logger. -/
theorem log_uses_captured_logger (k : Closure) (next : Chain) (c : GinContext)
    (lg : Logger) (r : LogRecord) (h : Event.log lg r ∈ (handler k next c).trace) :
    lg = k.logger := by
  unfold handler at h
  by_cases hf : filteredOut k c = true
  · simp [hf, skipped] at h
  · simp only [hf] at h
    cases hp : (next (tracedEntry k c)).panic with
    | none =>
      simp only [Bool.false_eq_true, if_false] at h
      rw [traced_trace_of_return k next c hp] at h
      unfold finalize at h
      by_cases h1 : (next (tracedEntry k c)).c.status > 0 <;>
        by_cases h2 : (next (tracedEntry k c)).c.Errors.length > 0 <;>
        simp [h1, h2] at h <;> rcases h with h | h <;> first | exact h.1 | skip
      all_goals (rcases h with h | h <;> exact h.1)
    | some v =>
      simp only [Bool.false_eq_true, if_false] at h
      rw [traced_trace_of_panic k next c v hp] at h
      simp at h
      exact h.1

/-! ## Claims -/

/-- C1: for every request that passes all filters (every predicate of Filters
and of GinFilters returns true) and for every downstream chain, panicking or
not, the trace of the handler has exactly one `tracer.Start` call and exactly
one `End` call, and that `End` is on the span which the `Start` returned. -/
theorem span_started_once_ended_once (k : Closure) (next : Chain) (c : GinContext)
    (hF : ∀ f ∈ k.Filters, f c.Request = true) (hG : ∀ g ∈ k.GinFilters, g c = true) :
    startCount (handler k next c).trace = 1 ∧
      (startCalls (handler k next c).trace).map (fun s => s.2.2.2) = [(started k c).2] ∧
      endCountAll (handler k next c).trace = 1 ∧
      endCount (started k c).2 (handler k next c).trace = 1 := by
  rw [handler_of_pass k next c hF hG]
  obtain ⟨f1, f2, f3, -, f5⟩ := finalize_counts k (started k c).2 (next (tracedEntry k c)).c
  cases hp : (next (tracedEntry k c)).panic with
  | none =>
    rw [traced_trace_of_return k next c hp]
    refine ⟨?_, ?_, ?_, ?_⟩
    · simp only [startCount] at f1 ⊢
      simp [List.countP_append, f1, List.countP_cons]
    · simp [startCalls_append, f5, startCalls]
    · simp only [endCountAll] at f2 ⊢
      simp [List.countP_append, f2, List.countP_cons]
    · simp only [endCount] at f3 ⊢
      simp [List.countP_append, f3, List.countP_cons]
  | some v =>
    rw [traced_trace_of_panic k next c v hp]
    simp [startCount, endCountAll, endCount, startCalls, List.countP_cons]

/-- Witness of C1: a request passing a closure without filters, with a chain
that panics. -/
theorem span_started_once_ended_once_witness :
    (panicChain (tracedEntry openClosure sampleContext)).panic = some "boom" ∧
      startCount (handler openClosure panicChain sampleContext).trace = 1 ∧
      (startCalls (handler openClosure panicChain sampleContext).trace).map
          (fun s => s.2.2.2) = [(started openClosure sampleContext).2] ∧
      endCountAll (handler openClosure panicChain sampleContext).trace = 1 ∧
      endCount (started openClosure sampleContext).2
          (handler openClosure panicChain sampleContext).trace = 1 :=
  ⟨rfl, span_started_once_ended_once openClosure panicChain sampleContext
    (by simp [openClosure]) (by simp [openClosure])⟩

/-- C2: for every request on which some predicate of Filters (applied to the
request) or of GinFilters (applied to the gin context) returns false, the
handler makes no `tracer.Start` call, emits no log, and calls the downstream
chain exactly once: its whole trace is that one call, and its outcome is the
outcome of the chain.  In particular, when some filter returns false for all
requests this holds for every request. -/
theorem filtered_request_untraced :
    (∀ (k : Closure) (next : Chain) (c : GinContext),
        ((∃ f ∈ k.Filters, f c.Request = false) ∨ (∃ g ∈ k.GinFilters, g c = false)) →
        startCount (handler k next c).trace = 0 ∧
          logsOf (handler k next c).trace = [] ∧
          nextCount (handler k next c).trace = 1 ∧
          (handler k next c).trace = [Event.next c.Request] ∧
          (handler k next c).c.Request = (next c).c.Request ∧
          (handler k next c).c.status = (next c).c.status ∧
          (handler k next c).c.Errors = (next c).c.Errors) ∧
    (∀ (k : Closure), (∃ f ∈ k.Filters, ∀ r, f r = false) →
        ∀ (next : Chain) (c : GinContext),
          startCount (handler k next c).trace = 0 ∧
            logsOf (handler k next c).trace = [] ∧
            nextCount (handler k next c).trace = 1) := by
  have key : ∀ (k : Closure) (next : Chain) (c : GinContext),
      ((∃ f ∈ k.Filters, f c.Request = false) ∨ (∃ g ∈ k.GinFilters, g c = false)) →
      startCount (handler k next c).trace = 0 ∧
        logsOf (handler k next c).trace = [] ∧
        nextCount (handler k next c).trace = 1 ∧
        (handler k next c).trace = [Event.next c.Request] ∧
        (handler k next c).c.Request = (next c).c.Request ∧
        (handler k next c).c.status = (next c).c.status ∧
        (handler k next c).c.Errors = (next c).c.Errors := by
    intro k next c h
    rw [handler_of_reject k next c h]
    simp [skipped, startCount, logsOf, nextCount]
  refine ⟨key, ?_⟩
  intro k hk next c
  obtain ⟨f, hf, hall⟩ := hk
  obtain ⟨h1, h2, h3, -⟩ := key k next c (Or.inl ⟨f, hf, hall c.Request⟩)
  exact ⟨h1, h2, h3⟩

/-- Witness of C2: a gin filter rejecting one request, and a filter that
returns false for all requests. -/
theorem filtered_request_untraced_witness :
    (startCount (handler ginFilterClosure okChain
          { sampleContext with Request := { sampleRequest with Host := "internal" } }).trace = 0 ∧
      logsOf (handler ginFilterClosure okChain
          { sampleContext with Request := { sampleRequest with Host := "internal" } }).trace = [] ∧
      nextCount (handler ginFilterClosure okChain
          { sampleContext with Request := { sampleRequest with Host := "internal" } }).trace = 1) ∧
    (startCount (handler rejectAllClosure panicChain sampleContext).trace = 0 ∧
      logsOf (handler rejectAllClosure panicChain sampleContext).trace = [] ∧
      nextCount (handler rejectAllClosure panicChain sampleContext).trace = 1) :=
  ⟨(fun h => ⟨h.1, h.2.1, h.2.2.1⟩)
      (filtered_request_untraced.1 ginFilterClosure okChain
        { sampleContext with Request := { sampleRequest with Host := "internal" } }
        (Or.inr ⟨fun c => c.Request.Host != "internal", by simp [ginFilterClosure],
          by simp [sampleRequest]⟩)),
    filtered_request_untraced.2 rejectAllClosure
      ⟨fun _ => false, by simp [rejectAllClosure], fun _ => rfl⟩ panicChain sampleContext⟩

/-- C3, counterexample: a filter rejects the request and the downstream chain
assigns `c.Request = c.Request.WithContext(ctx)`; the handler returns normally
and the request context it leaves differs from the one it began with. -/
theorem context_not_restored_when_filtered :
    ((∃ f ∈ rejectAllClosure.Filters, f sampleContext.Request = false) ∨
        (∃ g ∈ rejectAllClosure.GinFilters, g sampleContext = false)) ∧
      sampleContext.Request.Context = Ctx.background ∧
      (handler rejectAllClosure rebindChain sampleContext).panic = none ∧
      (handler rejectAllClosure rebindChain sampleContext).c.Request.Context =
        Ctx.derived Ctx.background "user" ∧
      (handler rejectAllClosure rebindChain sampleContext).c.Request.Context ≠
        sampleContext.Request.Context := by
  refine ⟨Or.inl ⟨fun _ => false, by simp [rejectAllClosure], rfl⟩, rfl, rfl, rfl, ?_⟩
  show Ctx.derived Ctx.background "user" ≠ Ctx.background
  intro h
  cases h

/-- C3, amended: for every request that passes all filters and every
downstream chain (normal return, recorded errors, panic, and also a chain that
replaces the request), the request context held by the gin context when the
handler finishes equals the one the request had when the handler began.  For a
request that some filter rejects the handler changes nothing itself: the
request at the end is the one the chain left. -/
theorem context_restored (k : Closure) (next : Chain) (c : GinContext) :
    ((∀ f ∈ k.Filters, f c.Request = true) → (∀ g ∈ k.GinFilters, g c = true) →
        (handler k next c).c.Request.Context = c.Request.Context) ∧
    (((∃ f ∈ k.Filters, f c.Request = false) ∨ (∃ g ∈ k.GinFilters, g c = false)) →
        (handler k next c).c.Request = (next c).c.Request) := by
  constructor
  · intro hF hG
    rw [handler_of_pass k next c hF hG]
    rfl
  · intro h
    rw [handler_of_reject k next c h]
    rfl

/-- Witness of C3 amended: restoration after a panicking chain and after a
chain that replaces the request on the traced path; the untouched request on
the filtered-out path. -/
theorem context_restored_witness :
    (handler openClosure panicChain sampleContext).c.Request.Context =
        sampleContext.Request.Context ∧
      (handler openClosure rebindChain sampleContext).c.Request.Context =
        sampleContext.Request.Context ∧
      (handler rejectAllClosure rebindChain sampleContext).c.Request =
        (rebindChain sampleContext).c.Request :=
  ⟨(context_restored openClosure panicChain sampleContext).1
      (by simp [openClosure]) (by simp [openClosure]),
    (context_restored openClosure rebindChain sampleContext).1
      (by simp [openClosure]) (by simp [openClosure]),
    (context_restored rejectAllClosure rebindChain sampleContext).2
      (Or.inl ⟨fun _ => false, by simp [rejectAllClosure], rfl⟩)⟩

/-- C4: for every request that passes all filters, the single `tracer.Start`
call is made with the span name `c.FullPath()` (the matched route template),
span kind server, and the attributes service.name = service, rpc.system =
grpc, rpc.service = service, rpc.method = request method, net.peer.name =
request host.  For a request `GET /users/42` matched by the route `/users/:id`
with no filters configured, the name is `/users/:id`, whatever the raw path,
and the method attribute is `GET`. -/
theorem span_start_shape (k : Closure) (next : Chain) (c : GinContext) :
    ((∀ f ∈ k.Filters, f c.Request = true) → (∀ g ∈ k.GinFilters, g c = true) →
        (startCalls (handler k next c).trace).map (fun s => (s.2.1, s.2.2.1)) =
          [ (c.FullPath,
              { attributes :=
                  [ ⟨"service.name", Value.str k.service⟩,
                    ⟨"rpc.system", Value.str "grpc"⟩,
                    ⟨"rpc.service", Value.str k.service⟩,
                    ⟨"rpc.method", Value.str c.Request.Method⟩,
                    ⟨"net.peer.name", Value.str c.Request.Host⟩ ],
                kind := SpanKind.server }) ]) ∧
    (k.Filters = [] → k.GinFilters = [] → c.Request.Method = "GET" →
        c.Request.URLPath = "/users/42" → c.fullPath = "/users/:id" →
        ∃ ctx attrs sp,
          startCalls (handler k next c).trace =
            [(ctx, "/users/:id", { attributes := attrs, kind := SpanKind.server }, sp)] ∧
          (⟨"rpc.method", Value.str "GET"⟩ : KeyValue) ∈ attrs) := by
  have main : (∀ f ∈ k.Filters, f c.Request = true) → (∀ g ∈ k.GinFilters, g c = true) →
      startCalls (handler k next c).trace =
        [(extracted k c, c.FullPath, startOpts k.service c.Request, (started k c).2)] := by
    intro hF hG
    rw [handler_of_pass k next c hF hG]
    obtain ⟨-, -, -, -, f5⟩ := finalize_counts k (started k c).2 (next (tracedEntry k c)).c
    cases hp : (next (tracedEntry k c)).panic with
    | none =>
      rw [traced_trace_of_return k next c hp]
      simp [startCalls_append, f5, startCalls]
    | some v =>
      rw [traced_trace_of_panic k next c v hp]
      simp [startCalls]
  constructor
  · intro hF hG
    rw [main hF hG]
    rfl
  · intro h1 h2 hm _ hp
    refine ⟨extracted k c, startAttributes k.service c.Request, (started k c).2, ?_, ?_⟩
    · rw [main (by simp [h1]) (by simp [h2])]
      simp [GinContext.FullPath, hp, startOpts]
    · simp [startAttributes, hm, RPCMethodKey]

/-- Witness of C4: the request `GET /users/42` on the route `/users/:id`. -/
theorem span_start_shape_witness :
    (startCalls (handler openClosure okChain sampleContext).trace).map
        (fun s => (s.2.1, s.2.2.1)) =
      [ ("/users/:id",
          { attributes :=
              [ ⟨"service.name", Value.str "users"⟩,
                ⟨"rpc.system", Value.str "grpc"⟩,
                ⟨"rpc.service", Value.str "users"⟩,
                ⟨"rpc.method", Value.str "GET"⟩,
                ⟨"net.peer.name", Value.str "example.com"⟩ ],
            kind := SpanKind.server }) ] ∧
    (∃ ctx attrs sp,
        startCalls (handler openClosure okChain sampleContext).trace =
          [(ctx, "/users/:id", { attributes := attrs, kind := SpanKind.server }, sp)] ∧
        (⟨"rpc.method", Value.str "GET"⟩ : KeyValue) ∈ attrs) :=
  ⟨(span_start_shape openClosure okChain sampleContext).1
      (by simp [openClosure]) (by simp [openClosure]),
    (span_start_shape openClosure okChain sampleContext).2 rfl rfl rfl rfl rfl⟩

/-- C8: for every request that passes all filters, `tracer.Start` is called
once, with the context that `Propagators.Extract` returns for the original
request context and the request headers; and the chain is called once, on a
request whose context is exactly the context which that `tracer.Start` call
returned, the rest of the request being unchanged. -/
theorem chain_runs_in_span_context (k : Closure) (next : Chain) (c : GinContext)
    (hF : ∀ f ∈ k.Filters, f c.Request = true) (hG : ∀ g ∈ k.GinFilters, g c = true) :
    (startCalls (handler k next c).trace).map (fun s => s.1) =
        [k.Propagators.Extract c.Request.Context c.Request.Header] ∧
      nextCount (handler k next c).trace = 1 ∧
      chainEntry k c = tracedEntry k c ∧
      (∃ pre post, (handler k next c).trace =
          pre ++ Event.next (chainEntry k c).Request :: post ∧
          startCount pre = 1 ∧ endCountAll pre = 0) ∧
      (chainEntry k c).Request.Context =
        (k.tracer.Start (k.Propagators.Extract c.Request.Context c.Request.Header)
          c.FullPath (startOpts k.service c.Request)).1 ∧
      (chainEntry k c).Request =
        c.Request.WithContext
          (k.tracer.Start (k.Propagators.Extract c.Request.Context c.Request.Header)
            c.FullPath (startOpts k.service c.Request)).1 := by
  have hfo := (filteredOut_eq_false_iff k c).2 ⟨hF, hG⟩
  have hce : chainEntry k c = tracedEntry k c := by simp [chainEntry, hfo]
  rw [handler_of_pass k next c hF hG, hce]
  obtain ⟨-, -, -, f4, f5⟩ := finalize_counts k (started k c).2 (next (tracedEntry k c)).c
  refine ⟨?_, ?_, rfl, ?_, rfl, rfl⟩
  · cases hp : (next (tracedEntry k c)).panic with
    | none =>
      rw [traced_trace_of_return k next c hp]
      simp [startCalls_append, f5, startCalls]
      rfl
    | some v =>
      rw [traced_trace_of_panic k next c v hp]
      simp [startCalls]
      rfl
  · cases hp : (next (tracedEntry k c)).panic with
    | none =>
      rw [traced_trace_of_return k next c hp]
      simp only [nextCount] at f4 ⊢
      simp [List.countP_append, f4, List.countP_cons]
    | some v =>
      rw [traced_trace_of_panic k next c v hp]
      simp [nextCount, List.countP_cons]
  · cases hp : (next (tracedEntry k c)).panic with
    | none =>
      rw [traced_trace_of_return k next c hp]
      exact ⟨[ Event.tracerStart (extracted k c) c.FullPath (startOpts k.service c.Request)
            (started k c).2,
          Event.log k.logger
            { level := Level.debug, fields := correlation (started k c).2,
              msg := "收到请求: ", args := [c.Request.Method, " ", c.FullPath] } ],
        finalize k (started k c).2 (next (tracedEntry k c)).c ++
          [Event.spanEnd (started k c).2],
        by simp, by simp [startCount, List.countP_cons],
        by simp [endCountAll, List.countP_cons]⟩
    | some v =>
      rw [traced_trace_of_panic k next c v hp]
      exact ⟨[ Event.tracerStart (extracted k c) c.FullPath (startOpts k.service c.Request)
            (started k c).2,
          Event.log k.logger
            { level := Level.debug, fields := correlation (started k c).2,
              msg := "收到请求: ", args := [c.Request.Method, " ", c.FullPath] } ],
        [Event.spanEnd (started k c).2],
        by simp, by simp [startCount, List.countP_cons],
        by simp [endCountAll, List.countP_cons]⟩

/-- Witness of C8: a request carrying a `traceparent` header; the chain runs
in the span context derived from the extracted remote context. -/
theorem chain_runs_in_span_context_witness :
    (chainEntry openClosure
        { sampleContext with
          Request := { sampleRequest with Header := [("traceparent", ["00-ab-cd-01"])] } }
        ).Request.Context =
      Ctx.derived (Ctx.derived Ctx.background "remote 00-ab-cd-01") "span /users/:id" :=
  (chain_runs_in_span_context openClosure okChain
      { sampleContext with
        Request := { sampleRequest with Header := [("traceparent", ["00-ab-cd-01"])] } }
      (by simp [openClosure]) (by simp [openClosure])).2.2.2.2.1.trans rfl

/-- C9: if the downstream chain, run on the gin context it is called with
(the incoming one on the filtered-out path, the span-bearing one on the traced
path), panics with value `v`, then the handler finishes by panicking with the
same value `v`; and the handler never panics when the chain returns. -/
theorem chain_panic_propagates (k : Closure) (next : Chain) (c : GinContext) :
    (∀ v, (next (chainEntry k c)).panic = some v → (handler k next c).panic = some v) ∧
      ((next (chainEntry k c)).panic = none → (handler k next c).panic = none) := by
  have key : (handler k next c).panic = (next (chainEntry k c)).panic := by
    unfold handler chainEntry
    by_cases hf : filteredOut k c = true
    · simp [hf, skipped]
    · simp only [hf, Bool.false_eq_true, if_false]
      simp only [traced, tracedBody]
      cases hp : (next (tracedEntry k c)).panic <;> rfl
  exact ⟨fun v h => key.trans h, fun h => key.trans h⟩

/-- Witness of C9: the panic value `boom` of the chain comes out of the
handler on the traced path and on the filtered-out path, and a returning
chain gives a returning handler. -/
theorem chain_panic_propagates_witness :
    (handler openClosure panicChain sampleContext).panic = some "boom" ∧
      (handler rejectAllClosure panicChain sampleContext).panic = some "boom" ∧
      (handler openClosure okChain sampleContext).panic = none :=
  ⟨(chain_panic_propagates openClosure panicChain sampleContext).1 "boom" rfl,
    (chain_panic_propagates rejectAllClosure panicChain sampleContext).1 "boom" rfl,
    (chain_panic_propagates openClosure okChain sampleContext).2 rfl⟩

/-- C5, counterexample, in two parts.  First half of the claim: the request
passes all filters, the chain writes the positive status 500 and then panics;
the span is closed, and its attributes are the five start attributes only: no
`rpc.grpc.status_code = 500`.  Second half: the request passes all filters
and the chain returns without setting any status; `c.Writer.Status()` of
gin's writer then reads `defaultStatus`, and the closed span does carry
`rpc.grpc.status_code = 200`. -/
theorem panic_drops_status_attribute :
    (filteredOut openClosure sampleContext = false ∧
      (panicChain (tracedEntry openClosure sampleContext)).c.status = 500 ∧
      closedSpanAttrs (started openClosure sampleContext).2
          (handler openClosure panicChain sampleContext).trace [] =
        some [ ⟨"service.name", Value.str "users"⟩,
               ⟨"rpc.system", Value.str "grpc"⟩,
               ⟨"rpc.service", Value.str "users"⟩,
               ⟨"rpc.method", Value.str "GET"⟩,
               ⟨"net.peer.name", Value.str "example.com"⟩ ] ∧
      (⟨"rpc.grpc.status_code", Value.int 500⟩ : KeyValue) ∉
        ([ ⟨"service.name", Value.str "users"⟩,
           ⟨"rpc.system", Value.str "grpc"⟩,
           ⟨"rpc.service", Value.str "users"⟩,
           ⟨"rpc.method", Value.str "GET"⟩,
           ⟨"net.peer.name", Value.str "example.com"⟩ ] : List KeyValue)) ∧
    (filteredOut openClosure sampleContext = false ∧
      sampleContext.status = defaultStatus ∧
      (idleChain (tracedEntry openClosure sampleContext)).panic = none ∧
      (idleChain (tracedEntry openClosure sampleContext)).c.status = sampleContext.status ∧
      closedSpanAttrs (started openClosure sampleContext).2
          (handler openClosure idleChain sampleContext).trace [] =
        some [ ⟨"service.name", Value.str "users"⟩,
               ⟨"rpc.system", Value.str "grpc"⟩,
               ⟨"rpc.service", Value.str "users"⟩,
               ⟨"rpc.method", Value.str "GET"⟩,
               ⟨"net.peer.name", Value.str "example.com"⟩,
               ⟨"rpc.grpc.status_code", Value.int 200⟩ ]) := by
  refine ⟨⟨rfl, rfl, rfl, ?_⟩, rfl, rfl, rfl, rfl, rfl⟩
  simp

/-- C5, amended: for every request that passes all filters the span is
closed.  If the chain returns (does not panic) and `c.Writer.Status()` then
reads a positive S, the closed span carries `rpc.grpc.status_code = S`; this
includes a status that the chain never set, which gin's writer reads as
`defaultStatus`, so that the span then carries `rpc.grpc.status_code = 200`.
If `c.Writer.Status()` reads zero (or less), the closed span carries no
`rpc.grpc.status_code` attribute. -/
theorem status_attribute (k : Closure) (next : Chain) (c : GinContext)
    (hF : ∀ f ∈ k.Filters, f c.Request = true) (hG : ∀ g ∈ k.GinFilters, g c = true) :
    ∃ attrs, closedSpanAttrs (started k c).2 (handler k next c).trace [] = some attrs ∧
      ((next (chainEntry k c)).panic = none → 0 < (next (chainEntry k c)).c.status →
        (⟨"rpc.grpc.status_code", Value.int (next (chainEntry k c)).c.status⟩ : KeyValue)
          ∈ attrs) ∧
      ((next (chainEntry k c)).panic = none →
        (next (chainEntry k c)).c.status = defaultStatus →
        (⟨"rpc.grpc.status_code", Value.int 200⟩ : KeyValue) ∈ attrs) ∧
      ((next (chainEntry k c)).c.status ≤ 0 →
        ∀ kv ∈ attrs, kv.key ≠ "rpc.grpc.status_code") := by
  have hfo := (filteredOut_eq_false_iff k c).2 ⟨hF, hG⟩
  have hce : chainEntry k c = tracedEntry k c := by simp [chainEntry, hfo]
  rw [handler_of_pass k next c hF hG, hce]
  cases hp : (next (tracedEntry k c)).panic with
  | none =>
    rw [closedSpanAttrs_of_return k next c hp]
    refine ⟨_, rfl, ?_, ?_, ?_⟩
    · intro _ hs
      simp [hs, RPCGRPCStatusCodeKey]
    · intro _ hs
      simp [hs, defaultStatus, RPCGRPCStatusCodeKey]
    · intro hs kv hkv
      have hs2 : ¬ (next (tracedEntry k c)).c.status > 0 := not_lt.mpr hs
      simp only [hs2, if_false, List.append_nil, List.mem_append] at hkv
      rcases hkv with hkv | hkv
      · simp [startAttributes, ServiceNameKey, RPCSystemKey, RPCServiceKey, RPCMethodKey,
          NetPeerNameKey] at hkv
        rcases hkv with h | h | h | h | h <;> simp [h]
      · split at hkv
        · simp at hkv
          simp [hkv]
        · simp at hkv
  | some v =>
    rw [closedSpanAttrs_of_panic k next c v hp]
    refine ⟨_, rfl, ?_, ?_, ?_⟩
    · intro h
      cases h
    · intro h
      cases h
    · intro _ kv hkv
      simp [startAttributes, ServiceNameKey, RPCSystemKey, RPCServiceKey, RPCMethodKey,
        NetPeerNameKey] at hkv
      rcases hkv with h | h | h | h | h <;> simp [h]

/-- Witness of C5 amended: a chain returning with the status 500 it set, a
chain returning without having set a status under gin's writer, and the same
chain under a writer that reports status 0. -/
theorem status_attribute_witness :
    (∃ attrs, closedSpanAttrs (started openClosure sampleContext).2
        (handler openClosure errorChain sampleContext).trace [] = some attrs ∧
      (⟨"rpc.grpc.status_code", Value.int 500⟩ : KeyValue) ∈ attrs) ∧
    (∃ attrs, closedSpanAttrs (started openClosure sampleContext).2
        (handler openClosure idleChain sampleContext).trace [] = some attrs ∧
      (⟨"rpc.grpc.status_code", Value.int 200⟩ : KeyValue) ∈ attrs) ∧
    (∃ attrs, closedSpanAttrs (started openClosure zeroStatusContext).2
        (handler openClosure idleChain zeroStatusContext).trace [] = some attrs ∧
      ∀ kv ∈ attrs, kv.key ≠ "rpc.grpc.status_code") :=
  ⟨match status_attribute openClosure errorChain sampleContext
        (by simp [openClosure]) (by simp [openClosure]) with
    | ⟨attrs, h1, h2, _, _⟩ => ⟨attrs, h1, h2 rfl (by decide)⟩,
   match status_attribute openClosure idleChain sampleContext
        (by simp [openClosure]) (by simp [openClosure]) with
    | ⟨attrs, h1, _, h3, _⟩ => ⟨attrs, h1, h3 rfl rfl⟩,
   match status_attribute openClosure idleChain zeroStatusContext
        (by simp [openClosure]) (by simp [openClosure]) with
    | ⟨attrs, h1, _, _, h4⟩ => ⟨attrs, h1, h4 (by decide)⟩⟩

/-- C6, counterexample: the request passes all filters, the chain records an
error and then panics; the closed span has no `gin.errors` attribute and the
only log emitted is the debug one: no error-level log. -/
theorem panic_drops_error_report :
    filteredOut openClosure sampleContext = false ∧
      (panicChain (tracedEntry openClosure sampleContext)).c.Errors = ["db down"] ∧
      closedSpanAttrs (started openClosure sampleContext).2
          (handler openClosure panicChain sampleContext).trace [] =
        some [ ⟨"service.name", Value.str "users"⟩,
               ⟨"rpc.system", Value.str "grpc"⟩,
               ⟨"rpc.service", Value.str "users"⟩,
               ⟨"rpc.method", Value.str "GET"⟩,
               ⟨"net.peer.name", Value.str "example.com"⟩ ] ∧
      (logsOf (handler openClosure panicChain sampleContext).trace).map (fun r => r.level) =
        [Level.debug] :=
  ⟨rfl, rfl, rfl, rfl⟩

/-- C6, amended: for every request that passes all filters the span is
closed; if the chain returns (does not panic) and `len(c.Errors) > 0`, the
closed span carries the string attribute `gin.errors` equal to
`c.Errors.String()` and exactly one error-level log is emitted; if
`c.Errors` is empty, the closed span has no `gin.errors` attribute and no
error-level log is emitted. -/
theorem error_report (k : Closure) (next : Chain) (c : GinContext)
    (hF : ∀ f ∈ k.Filters, f c.Request = true) (hG : ∀ g ∈ k.GinFilters, g c = true) :
    ∃ attrs, closedSpanAttrs (started k c).2 (handler k next c).trace [] = some attrs ∧
      ((next (chainEntry k c)).panic = none → 0 < (next (chainEntry k c)).c.Errors.length →
        (⟨"gin.errors", Value.str (ErrorsString (next (chainEntry k c)).c.Errors)⟩ : KeyValue)
            ∈ attrs ∧
          (logsOf (handler k next c).trace).countP (fun r => r.level = Level.error) = 1) ∧
      ((next (chainEntry k c)).c.Errors.length = 0 →
        (∀ kv ∈ attrs, kv.key ≠ "gin.errors") ∧
          (logsOf (handler k next c).trace).countP (fun r => r.level = Level.error) = 0) := by
  have hfo := (filteredOut_eq_false_iff k c).2 ⟨hF, hG⟩
  have hce : chainEntry k c = tracedEntry k c := by simp [chainEntry, hfo]
  rw [handler_of_pass k next c hF hG, hce]
  cases hp : (next (tracedEntry k c)).panic with
  | none =>
    rw [closedSpanAttrs_of_return k next c hp, traced_trace_of_return k next c hp]
    simp only [logsOf_append, logsOf_finalize]
    refine ⟨_, rfl, ?_, ?_⟩
    · intro _ he
      simp [he, logsOf, List.countP_cons, List.countP_append]
    · intro he
      have he2 : ¬ (next (tracedEntry k c)).c.Errors.length > 0 := by omega
      constructor
      · intro kv hkv
        simp only [he2, if_false, List.append_nil, List.mem_append] at hkv
        rcases hkv with hkv | hkv
        · simp [startAttributes, ServiceNameKey, RPCSystemKey, RPCServiceKey, RPCMethodKey,
            NetPeerNameKey] at hkv
          rcases hkv with h | h | h | h | h <;> simp [h]
        · split at hkv
          · simp at hkv
            simp [hkv, RPCGRPCStatusCodeKey]
          · simp at hkv
      · simp [he2, logsOf, List.countP_cons]
  | some v =>
    rw [closedSpanAttrs_of_panic k next c v hp, traced_trace_of_panic k next c v hp]
    refine ⟨_, rfl, ?_, ?_⟩
    · intro h
      cases h
    · intro _
      constructor
      · intro kv hkv
        simp [startAttributes, ServiceNameKey, RPCSystemKey, RPCServiceKey, RPCMethodKey,
          NetPeerNameKey] at hkv
        rcases hkv with h | h | h | h | h <;> simp [h]
      · simp [logsOf, List.countP_cons]

/-- Witness of C6 amended: a chain returning with one recorded error, and a
chain returning with none. -/
theorem error_report_witness :
    (∃ attrs, closedSpanAttrs (started openClosure sampleContext).2
        (handler openClosure errorChain sampleContext).trace [] = some attrs ∧
      (⟨"gin.errors", Value.str (ErrorsString ["db down"])⟩ : KeyValue) ∈ attrs ∧
      (logsOf (handler openClosure errorChain sampleContext).trace).countP
        (fun r => r.level = Level.error) = 1) ∧
    (∃ attrs, closedSpanAttrs (started openClosure sampleContext).2
        (handler openClosure okChain sampleContext).trace [] = some attrs ∧
      (∀ kv ∈ attrs, kv.key ≠ "gin.errors") ∧
      (logsOf (handler openClosure okChain sampleContext).trace).countP
        (fun r => r.level = Level.error) = 0) :=
  ⟨match error_report openClosure errorChain sampleContext
        (by simp [openClosure]) (by simp [openClosure]) with
    | ⟨attrs, h1, h2, _⟩ => ⟨attrs, h1, h2 rfl (by decide)⟩,
   match error_report openClosure okChain sampleContext
        (by simp [openClosure]) (by simp [openClosure]) with
    | ⟨attrs, h1, _, h3⟩ => ⟨attrs, h1, h3 rfl⟩⟩

/-- C7, counterexample: the request passes all filters and the chain panics;
the handler emits the debug log and nothing else: there is no final
info-level log. -/
theorem panic_drops_info_log :
    filteredOut openClosure sampleContext = false ∧
      (panicChain (tracedEntry openClosure sampleContext)).panic = some "boom" ∧
      logsOf (handler openClosure panicChain sampleContext).trace =
        [ { level := Level.debug,
            fields := [ ("traceID", Value.str "4bf92f3577b34da6a3ce929d0e0e4736"),
                        ("spanID", Value.str "00f067aa0ba902b7") ],
            msg := "收到请求: ", args := ["GET", " ", "/users/:id"] } ] ∧
      (logsOf (handler openClosure panicChain sampleContext).trace).countP
        (fun r => r.level = Level.info) = 0 :=
  ⟨rfl, rfl, rfl, rfl⟩

/-- C7, amended: for every request that passes all filters, the handler emits
one debug-level log before the downstream chain is called; when the chain
returns (does not panic) it then emits one error-level log if and only if
`c.Errors` is not empty, and last one info-level log that carries the response
status; when the chain panics it emits no further log.  Every log emitted
carries as traceID and spanID the IDs of the span that `tracer.Start` returned
for this request. -/
theorem log_sequence (k : Closure) (next : Chain) (c : GinContext)
    (hF : ∀ f ∈ k.Filters, f c.Request = true) (hG : ∀ g ∈ k.GinFilters, g c = true) :
    ∃ pre post,
      (handler k next c).trace = pre ++ Event.next (chainEntry k c).Request :: post ∧
      nextCount pre = 0 ∧ nextCount post = 0 ∧
      (startCalls pre).map (fun s => s.2.2.2) = [(started k c).2] ∧
      logsOf pre =
        [ { level := Level.debug,
            fields := [ ("traceID", Value.str (started k c).2.traceID),
                        ("spanID", Value.str (started k c).2.spanID) ],
            msg := "收到请求: ", args := [c.Request.Method, " ", c.FullPath] } ] ∧
      ((next (chainEntry k c)).panic = none →
        logsOf post =
          (if 0 < (next (chainEntry k c)).c.Errors.length then
            [ { level := Level.error,
                fields := [ ("traceID", Value.str (started k c).2.traceID),
                            ("spanID", Value.str (started k c).2.spanID) ],
                msg := "请求出错: ",
                args := [ErrorsString (next (chainEntry k c)).c.Errors] } ]
            else []) ++
          [ { level := Level.info,
              fields := [ ("traceID", Value.str (started k c).2.traceID),
                          ("spanID", Value.str (started k c).2.spanID),
                          ("status", Value.int (next (chainEntry k c)).c.status) ],
              msg := "请求完成: ",
              args := [ (next (chainEntry k c)).c.Request.Method, " ",
                        (next (chainEntry k c)).c.FullPath ] } ]) ∧
      ((next (chainEntry k c)).panic ≠ none → logsOf post = []) := by
  have hfo := (filteredOut_eq_false_iff k c).2 ⟨hF, hG⟩
  have hce : chainEntry k c = tracedEntry k c := by simp [chainEntry, hfo]
  rw [handler_of_pass k next c hF hG, hce]
  obtain ⟨-, -, -, f4, -⟩ := finalize_counts k (started k c).2 (next (tracedEntry k c)).c
  cases hp : (next (tracedEntry k c)).panic with
  | none =>
    rw [traced_trace_of_return k next c hp]
    refine ⟨[ Event.tracerStart (extracted k c) c.FullPath (startOpts k.service c.Request)
            (started k c).2,
          Event.log k.logger
            { level := Level.debug, fields := correlation (started k c).2,
              msg := "收到请求: ", args := [c.Request.Method, " ", c.FullPath] } ],
        finalize k (started k c).2 (next (tracedEntry k c)).c ++
          [Event.spanEnd (started k c).2], by simp, by simp [nextCount, List.countP_cons],
        ?_, by simp [startCalls], by simp [logsOf, correlation], ?_, ?_⟩
    · simp only [nextCount] at f4 ⊢
      simp [List.countP_append, f4, List.countP_cons]
    · intro _
      rw [logsOf_append, logsOf_finalize]
      simp [logsOf, correlation]
    · intro h
      exact absurd rfl h
  | some v =>
    rw [traced_trace_of_panic k next c v hp]
    refine ⟨[ Event.tracerStart (extracted k c) c.FullPath (startOpts k.service c.Request)
            (started k c).2,
          Event.log k.logger
            { level := Level.debug, fields := correlation (started k c).2,
              msg := "收到请求: ", args := [c.Request.Method, " ", c.FullPath] } ],
        [Event.spanEnd (started k c).2], by simp, by simp [nextCount, List.countP_cons],
        by simp [nextCount, List.countP_cons], by simp [startCalls],
        by simp [logsOf, correlation], ?_, ?_⟩
    · intro h
      cases h
    · intro _
      simp [logsOf]

/-- Witness of C7 amended: a chain that records an error and returns with
status 500; the logs are debug, error, info in this order. -/
theorem log_sequence_witness :
    (logsOf (handler openClosure errorChain sampleContext).trace).map (fun r => r.level) =
        [Level.debug, Level.error, Level.info] ∧
      (∃ pre post,
        (handler openClosure errorChain sampleContext).trace =
          pre ++ Event.next (chainEntry openClosure sampleContext).Request :: post ∧
        (logsOf pre).map (fun r => r.level) = [Level.debug] ∧
        (logsOf post).map (fun r => r.level) = [Level.error, Level.info]) :=
  ⟨rfl,
    match log_sequence openClosure errorChain sampleContext
        (by simp [openClosure]) (by simp [openClosure]) with
    | ⟨pre, post, h1, _, _, _, h5, h6, _⟩ =>
      ⟨pre, post, h1, by rw [h5]; rfl, by rw [h6 rfl]; rfl⟩⟩

/-- C10: in every call of `Middleware` in which the log exporter initialises,
`Middleware` does not panic and returns a handler; the logger provider built
over that exporter is installed as the process-wide logger provider and
`Shutdown` is then called on it, before the handler reaches the caller: in the
process state that comes with the handler the provider is the process-wide one
and is among the shut-down providers; and every log call that the returned
handler makes, on any request with any chain, goes through a logger bound to
that provider. -/
theorem logger_provider_shut_down_at_return (env : Env) (service : String)
    (opts : List Opt) (p : Process) (exp : Exporter) (h : env.newExporter = Except.ok exp) :
    (Middleware env service opts p).panic = none ∧
      (Middleware env service opts p).calls =
        [ SetupEvent.setLoggerProvider { exporter := exp },
          SetupEvent.shutdown { exporter := exp } ] ∧
      (Middleware env service opts p).proc.loggerProvider = some { exporter := exp } ∧
      ({ exporter := exp } : LoggerProvider) ∈ (Middleware env service opts p).proc.stopped ∧
      ∃ hd, (Middleware env service opts p).handler = some hd ∧
        ∀ (next : Chain) (c : GinContext) (lg : Logger) (r : LogRecord),
          Event.log lg r ∈ (hd next c).trace →
            lg.provider = some { exporter := exp } ∧
              ∀ lp ∈ lg.provider, lp ∈ (Middleware env service opts p).proc.stopped := by
  simp only [Middleware, h]
  refine ⟨trivial, trivial, trivial, by simp, _, rfl, ?_⟩
  intro next c lg r hmem
  have hl := log_uses_captured_logger _ next c lg r hmem
  subst hl
  simp [NewLogger]

/-- Witness of C10: construction in a fresh process with exporter 7. -/
theorem logger_provider_shut_down_at_return_witness :
    sampleEnv.newExporter = Except.ok ⟨7⟩ ∧
      (Middleware sampleEnv "users" [] freshProcess).calls =
        [ SetupEvent.setLoggerProvider { exporter := ⟨7⟩ },
          SetupEvent.shutdown { exporter := ⟨7⟩ } ] ∧
      (Middleware sampleEnv "users" [] freshProcess).proc =
        { loggerProvider := some { exporter := ⟨7⟩ }, stopped := [{ exporter := ⟨7⟩ }] } :=
  ⟨rfl,
    (logger_provider_shut_down_at_return sampleEnv "users" [] freshProcess ⟨7⟩ rfl).2.1,
    rfl⟩

end otelgin
